import Mathlib

/-!
Verification of the FFI boundary layer in src/ffi.cpp (adobe/xmp-toolkit-rs).

The development shallowly embeds the boundary functions of ffi.cpp.
Machine strings are byte lists.  The C heap that carries strings across
the boundary is explicit: a list of cells, where the cell index is the
pointer value and a `none` cell is freed memory, so that ownership,
freshness and use-after-free are directly observable.

Calls into the inner XMP engine (SXMPMeta, SXMPFiles, SXMPUtils) are out
of scope per the design (the engine is a black box); each wrapped engine
call therefore enters the embedding as an explicit outcome parameter:
normal return with a value, a thrown engine XMP_Error, or any other
thrown exception.  Each boundary function is translated statement by
statement from ffi.cpp; the presence or absence of try/catch regions in
the source is mirrored exactly by whether the embedded function can
produce the `propagated` result.
-/

/-- A byte string: the contents of a C character buffer. -/
abbrev Bytes := List Nat

/-- The C heap for boundary-owned strings: cell index = pointer value,
`none` = freed cell. -/
abbrev Heap := List (Option Bytes)

/-- malloc of a fresh cell holding `s`; the returned pointer is the index
just past the existing cells, hence never a previously handed-out pointer. -/
def Heap.alloc (h : Heap) (s : Bytes) : Heap × Nat :=
  (h ++ [some s], List.length h)

/-- free() on a possibly-NULL pointer: free(NULL) is a no-op, otherwise
the cell becomes dead (its index is never reused by `Heap.alloc`). -/
def Heap.free (h : Heap) (p : Option Nat) : Heap :=
  match p with
  | none => h
  | some i => List.set h i none

/-- Dereference: contents of a live cell; `none` for freed or
out-of-range pointers. -/
def Heap.lookup : Heap → Nat → Option Bytes
  | [], _ => none
  | c :: _, 0 => c
  | _ :: h, Nat.succ n => Heap.lookup h n

/-- copyStringForResult (ffi.cpp lines 47-59): malloc(size + 1) and
memcpy of the source bytes plus the terminating nul; an exact copy into
a fresh allocation, no truncation, no re-encoding. -/
def copyStringForResult (h : Heap) (s : Bytes) : Heap × Nat :=
  Heap.alloc h (s ++ [0])

/-- Reading a nul-terminated buffer back as a C string: the bytes before
the first nul. -/
def takeUntilNul : Bytes → Bytes
  | [] => []
  | b :: bs => if b = 0 then [] else b :: takeUntilNul bs

/-- struct CXmpError (ffi.cpp lines 62-78): hadError and id are int32
fields, debugMessage a nullable owned pointer into the boundary heap. -/
structure CXmpError where
  hadError : Int
  id : Int
  debugMessage : Option Nat
deriving DecidableEq

/-- CXmpError::reset (ffi.cpp lines 72-77): zero the two fields and
free the owned message. -/
def CXmpError.reset (e : CXmpError) (h : Heap) : CXmpError × Heap :=
  (⟨0, 0, none⟩, Heap.free h e.debugMessage)

/-- The clean state of an error record: no error flagged and no owned
message. -/
abbrev CXmpError.isClean (e : CXmpError) : Prop :=
  e.hadError = 0 ∧ e.debugMessage = none

/-- An engine XMP_Error as observed at a catch site: GetID() and
GetErrMsg() views (the message is a nul-free C string). -/
structure XMP_Error where
  id : Int
  errMsg : Bytes
deriving DecidableEq

/-- kXMPErr_Unknown from the engine headers (XMP_Const.h), the reserved
code for failures without engine detail. -/
def kXMPErr_Unknown : Int := 0

/-- copyErrorForResult body for a non-null record (ffi.cpp lines 81-88,
inside the null guard): flag the error, copy the id, free any prior
message and package the engine message via copyStringForResult. -/
def copyErrorForResultCore (e : XMP_Error) (r : CXmpError) (h : Heap) :
    CXmpError × Heap :=
  let h1 := Heap.free h r.debugMessage
  let a := copyStringForResult h1 e.errMsg
  (⟨1, e.id, some a.2⟩, a.1)

/-- copyErrorForResult (ffi.cpp lines 81-88): no-op when the record
pointer is null. -/
def copyErrorForResult (e : XMP_Error) (o : Option CXmpError) (h : Heap) :
    Option CXmpError × Heap :=
  match o with
  | none => (none, h)
  | some r =>
    let a := copyErrorForResultCore e r h
    (some a.1, a.2)

/-- signalUnknownError body for a non-null record (ffi.cpp lines 90-97):
flag the error with the reserved unknown code, free any prior message,
leave the message absent. -/
def signalUnknownErrorCore (r : CXmpError) (h : Heap) : CXmpError × Heap :=
  (⟨1, kXMPErr_Unknown, none⟩, Heap.free h r.debugMessage)

/-- signalUnknownError (ffi.cpp lines 90-97): no-op when the record
pointer is null. -/
def signalUnknownError (o : Option CXmpError) (h : Heap) :
    Option CXmpError × Heap :=
  match o with
  | none => (none, h)
  | some r =>
    let a := signalUnknownErrorCore r h
    (some a.1, a.2)

/-- The bytes of the message "XMP Toolkit unavailable" (ASCII). -/
def xmpUnavailableMsg : Bytes :=
  [88, 77, 80, 32, 84, 111, 111, 108, 107, 105, 116, 32,
   117, 110, 97, 118, 97, 105, 108, 97, 98, 108, 101]

/-- signalXmpInitFailure body for a non-null record (ffi.cpp lines
99-106): the reserved unknown code plus the fixed unavailability
message. -/
def signalXmpInitFailureCore (r : CXmpError) (h : Heap) : CXmpError × Heap :=
  let h1 := Heap.free h r.debugMessage
  let a := copyStringForResult h1 xmpUnavailableMsg
  (⟨1, kXMPErr_Unknown, some a.2⟩, a.1)

/-- signalXmpInitFailure (ffi.cpp lines 99-106): no-op when the record
pointer is null. -/
def signalXmpInitFailure (o : Option CXmpError) (h : Heap) :
    Option CXmpError × Heap :=
  match o with
  | none => (none, h)
  | some r =>
    let a := signalXmpInitFailureCore r h
    (some a.1, a.2)

/-- xmpFileErrorCallback (ffi.cpp lines 108-123) acting on the embedded
record of a File handle (the registered context is always the address of
that record, hence non-null): record the cause and package a copy of the
message.  The callback returns false (do not continue), which is why the
enclosing OpenFile call then returns false. -/
def xmpFileErrorCallback (cause : Int) (message : Bytes)
    (err : CXmpError) (h : Heap) : CXmpError × Heap :=
  let h1 := Heap.free h err.debugMessage
  let a := copyStringForResult h1 message
  (⟨1, cause, some a.2⟩, a.1)

/-- Outcome of one wrapped inner-engine call: normal return with a
value, a thrown engine XMP_Error, or any other thrown exception. -/
inductive EngineOutcome (α : Type) where
  | ok (a : α)
  | xmpError (e : XMP_Error)
  | otherError
deriving DecidableEq

/-- Result of one boundary call as seen by the foreign caller: either a
normal return of the poststate, or an exception escaping the boundary. -/
inductive BoundaryResult (α : Type) where
  | ret (a : α)
  | propagated
deriving DecidableEq

/-- struct CXmpFile (ffi.cpp lines 127-140): the capsule owns the
SXMPFiles object (opaque here) and one embedded CXmpError that the
registered error callback writes into. -/
structure CXmpFile where
  err : CXmpError
deriving DecidableEq

/-- Behavior of the engine SXMPFiles::OpenFile call inside CXmpFileOpen:
it may succeed, report a fault through the registered callback and then
return false, return false without a callback, or throw. -/
inductive OpenFileOutcome where
  | opened
  | failViaCallback (cause : Int) (message : Bytes)
  | failPlain
  | throwXmp (e : XMP_Error)
  | throwOther
deriving DecidableEq

/-- CXmpFileOpen (ffi.cpp lines 200-222).  The body is fully guarded by
catch handlers, so no outcome propagates.  Statement order on the
callback-failure path follows the source exactly: `f->err.reset()`, the
engine call populating the embedded record through the callback, then on
the false return `*outError = f->err` (a shallow struct copy, the
message pointer included, the prior caller message being dropped
unfreed) followed by `f->err.reset()` which frees the message cell.  The
source writes through outError unconditionally on that path, so the
record parameter is non-null here. -/
def CXmpFileOpen (f : CXmpFile) (oc : OpenFileOutcome)
    (outError : CXmpError) (h : Heap) :
    BoundaryResult (CXmpFile × CXmpError × Heap) :=
  let s1 := CXmpError.reset f.err h
  match oc with
  | .opened => .ret (⟨s1.1⟩, outError, s1.2)
  | .failViaCallback cause msg =>
    let s2 := xmpFileErrorCallback cause msg s1.1 s1.2
    let s3 := CXmpError.reset s2.1 s2.2
    .ret (⟨s3.1⟩, s2.1, s3.2)
  | .failPlain =>
    let s3 := CXmpError.reset s1.1 s1.2
    .ret (⟨s3.1⟩, s1.1, s3.2)
  | .throwXmp e =>
    let a := copyErrorForResultCore e outError s1.2
    .ret (⟨s1.1⟩, a.1, a.2)
  | .throwOther =>
    let a := signalUnknownErrorCore outError s1.2
    .ret (⟨s1.1⟩, a.1, a.2)

/-- CXmpFileClose (ffi.cpp lines 224-231): the single engine call
`f->f.CloseFile()` stands outside any try/catch region, so a thrown
fault of either kind escapes the boundary. -/
def CXmpFileClose (oc : EngineOutcome Unit) : BoundaryResult Unit :=
  match oc with
  | .ok _ => .ret ()
  | .xmpError _ => .propagated
  | .otherError => .propagated

/-- CXmpFileGetXmp (ffi.cpp lines 233-254): construction of the CXmpMeta
capsule and the GetXMP call are each guarded by a catch-all that merely
discards the fault; the function takes no error record, and NULL is
returned both when no metadata is present and when an exception
occurred.  The result is `some ()` exactly when a handle is returned. -/
def CXmpFileGetXmp (construct : EngineOutcome Unit)
    (getXmp : EngineOutcome Bool) : Option Unit :=
  match construct with
  | .ok _ =>
    match getXmp with
    | .ok true => some ()
    | .ok false => none
    | .xmpError _ => none
    | .otherError => none
  | .xmpError _ => none
  | .otherError => none

/-- CXmpMetaSetProperty (ffi.cpp lines 633-650): one wrapped engine
call; the caller record is not touched on entry nor on the success
path, and each catch handler runs exactly one populate routine. -/
def CXmpMetaSetProperty (oc : EngineOutcome Unit)
    (outError : Option CXmpError) (h : Heap) :
    BoundaryResult (Option CXmpError × Heap) :=
  match oc with
  | .ok _ => .ret (outError, h)
  | .xmpError e => .ret (copyErrorForResult e outError h)
  | .otherError => .ret (signalUnknownError outError h)

/-- CXmpMetaGetProperty (ffi.cpp lines 479-502): `*outOptions = 0`
first; a found property is packaged through copyStringForResult with the
engine-written options; an absent property returns NULL with the record
untouched; a fault populates the record and returns NULL.  The engine
call outcome carries `some (value, options)` when the property exists. -/
def CXmpMetaGetProperty (oc : EngineOutcome (Option (Bytes × Nat)))
    (outError : Option CXmpError) (h : Heap) :
    BoundaryResult (Option Nat × Nat × Option CXmpError × Heap) :=
  match oc with
  | .ok (some v) =>
    let a := copyStringForResult h v.1
    .ret (some a.2, v.2, outError, a.1)
  | .ok none => .ret (none, 0, outError, h)
  | .xmpError e =>
    let a := copyErrorForResult e outError h
    .ret (none, 0, a.1, a.2)
  | .otherError =>
    let a := signalUnknownError outError h
    .ret (none, 0, a.1, a.2)

/-- An uninterpreted IEEE double: the boundary only passes it through. -/
structure DoubleVal where
  bits : Nat
deriving DecidableEq

/-- XMP_DateTime value, opaque to the boundary layer. -/
structure XMP_DateTime where
  raw : Nat
deriving DecidableEq

/-- Common body of the five typed property readers
CXmpMetaGetProperty_Bool / _Int / _Int64 / _Float / _Date (ffi.cpp lines
504-631), which are textually identical up to the value type:
`*outOptions = 0` first; a found property returns true with the
engine-written value and options; an absent property returns false with
the out value untouched; a fault populates the record and returns
false. -/
def getPropertyTyped (α : Type) (oc : EngineOutcome (Option (α × Nat)))
    (outError : Option CXmpError) (outValue : α) (h : Heap) :
    BoundaryResult (Bool × α × Nat × Option CXmpError × Heap) :=
  match oc with
  | .ok (some v) => .ret (true, v.1, v.2, outError, h)
  | .ok none => .ret (false, outValue, 0, outError, h)
  | .xmpError e =>
    let a := copyErrorForResult e outError h
    .ret (false, outValue, 0, a.1, a.2)
  | .otherError =>
    let a := signalUnknownError outError h
    .ret (false, outValue, 0, a.1, a.2)

/-- CXmpMetaGetProperty_Bool (ffi.cpp lines 504-527). -/
def CXmpMetaGetProperty_Bool := getPropertyTyped Bool

/-- CXmpMetaGetProperty_Int (ffi.cpp lines 529-553). -/
def CXmpMetaGetProperty_Int := getPropertyTyped Int

/-- CXmpMetaGetProperty_Int64 (ffi.cpp lines 555-579). -/
def CXmpMetaGetProperty_Int64 := getPropertyTyped Int

/-- CXmpMetaGetProperty_Float (ffi.cpp lines 581-605). -/
def CXmpMetaGetProperty_Float := getPropertyTyped DoubleVal

/-- CXmpMetaGetProperty_Date (ffi.cpp lines 607-631). -/
def CXmpMetaGetProperty_Date := getPropertyTyped XMP_DateTime

/-- CXmpMetaDoesPropertyExist (ffi.cpp lines 983-996): no error record
parameter; a caught fault is discarded and 0 is returned, the same value
as for a property that does not exist. -/
def CXmpMetaDoesPropertyExist (oc : EngineOutcome Bool) : Int :=
  match oc with
  | .ok true => 1
  | .ok false => 0
  | .xmpError _ => 0
  | .otherError => 0

/-- CXmpMetaParseFromBuffer (ffi.cpp lines 333-359): gate check first,
then `new CXmpMeta` OUTSIDE the try region (a throwing construction
therefore escapes the boundary), then the guarded ParseFromBuffer call.
The Bool in the poststate records whether a non-null handle was
returned. -/
def CXmpMetaParseFromBuffer (gateOk : Bool)
    (construct : EngineOutcome Unit) (parse : EngineOutcome Unit)
    (outError : Option CXmpError) (h : Heap) :
    BoundaryResult (Bool × Option CXmpError × Heap) :=
  if gateOk then
    match construct with
    | .ok _ =>
      match parse with
      | .ok _ => .ret (true, outError, h)
      | .xmpError e =>
        let a := copyErrorForResult e outError h
        .ret (false, a.1, a.2)
      | .otherError =>
        let a := signalUnknownError outError h
        .ret (false, a.1, a.2)
    | .xmpError _ => .propagated
    | .otherError => .propagated
  else
    let a := signalXmpInitFailure outError h
    .ret (false, a.1, a.2)

/-- CXmpMetaRegisterNamespace (ffi.cpp lines 390-414): gate check first;
on gate failure signalXmpInitFailure runs and NULL is returned without
reaching the engine.  The first component of the result is a ghost flag
recording whether the inner-engine call was reached. -/
def CXmpMetaRegisterNamespace (gateOk : Bool) (oc : EngineOutcome Bytes)
    (outError : Option CXmpError) (h : Heap) :
    Bool × Option Nat × Option CXmpError × Heap :=
  if gateOk then
    match oc with
    | .ok s =>
      let a := copyStringForResult h s
      (true, some a.2, outError, a.1)
    | .xmpError e =>
      let a := copyErrorForResult e outError h
      (true, none, a.1, a.2)
    | .otherError =>
      let a := signalUnknownError outError h
      (true, none, a.1, a.2)
  else
    let a := signalXmpInitFailure outError h
    (false, none, a.1, a.2)

/-- CXmpDateTimeCurrent (ffi.cpp lines 1425-1439): unlike its sibling
date-time entry points, the body contains no init_xmp() call; the gate
state parameter is present only because the process has one, and the
source never consults it.  The first component of the result is a ghost
flag recording whether the inner-engine call was reached (the source
guards it only by the `if (dt)` null check). -/
def CXmpDateTimeCurrent (_gateSucceeded : Bool) (dt : Option XMP_DateTime)
    (oc : EngineOutcome XMP_DateTime) (outError : Option CXmpError)
    (h : Heap) :
    Bool × Option XMP_DateTime × Option CXmpError × Heap :=
  match dt with
  | none => (false, none, outError, h)
  | some _ =>
    match oc with
    | .ok d => (true, some d, outError, h)
    | .xmpError e =>
      let a := copyErrorForResult e outError h
      (true, dt, a.1, a.2)
    | .otherError =>
      let a := signalUnknownError outError h
      (true, dt, a.1, a.2)

/-- Result of a CXmpFileOpen call whose record pointer may be null:
either a normal return of the poststate, or the execution of the
unguarded store `*outError = f->err` with a null pointer, a write
through null (undefined behavior), kept as a distinguished outcome. -/
inductive OpenResult where
  | ret (a : CXmpFile × Option CXmpError × Heap)
  | nullDeref
deriving DecidableEq

/-- CXmpFileOpen (ffi.cpp lines 200-222) with a possibly-null record
pointer.  The catch handlers write the record only through the
null-guarded routines copyErrorForResult / signalUnknownError, but the
OpenFile-false path executes the plain struct store `*outError = f->err`
with no null guard, so on that path a null record pointer is a write
through null.  For a non-null pointer the function coincides with
`CXmpFileOpen`. -/
def CXmpFileOpenOpt (f : CXmpFile) (oc : OpenFileOutcome)
    (outError : Option CXmpError) (h : Heap) : OpenResult :=
  let s1 := CXmpError.reset f.err h
  match oc with
  | .opened => .ret (⟨s1.1⟩, outError, s1.2)
  | .failViaCallback cause msg =>
    let s2 := xmpFileErrorCallback cause msg s1.1 s1.2
    match outError with
    | none => .nullDeref
    | some _ =>
      let s3 := CXmpError.reset s2.1 s2.2
      .ret (⟨s3.1⟩, some s2.1, s3.2)
  | .failPlain =>
    match outError with
    | none => .nullDeref
    | some _ =>
      let s3 := CXmpError.reset s1.1 s1.2
      .ret (⟨s3.1⟩, some s1.1, s3.2)
  | .throwXmp e =>
    let a := copyErrorForResult e outError s1.2
    .ret (⟨s1.1⟩, a.1, a.2)
  | .throwOther =>
    let a := signalUnknownError outError s1.2
    .ret (⟨s1.1⟩, a.1, a.2)

/-- Engine behavior of one execution of the setup body init_xmp_fn
(ffi.cpp lines 29-40): both Initialize calls succeed, or one throws an
XMP_Error (caught inside the body, which then returns normally with the
success flag still false), or one throws any other exception, which the
body does not catch and which therefore escapes through std::call_once. -/
inductive InitBehavior where
  | ok
  | engineError
  | foreign
deriving DecidableEq

/-- Process-wide gate state (ffi.cpp lines 26-27): the std::once_flag,
which is set only by an execution of the callable that returns normally,
and the volatile success flag. -/
structure GateState where
  flagDone : Bool
  succeeded : Bool
deriving DecidableEq

/-- The gate state at process start. -/
def gateInit : GateState := ⟨false, false⟩

/-- One completed call of init_xmp (ffi.cpp lines 42-45) under
std::call_once semantics: if the once-flag is set the cached flag is
returned without running the body; otherwise the body runs with the
given behavior.  A body execution that exits by a foreign exception
leaves the once-flag unset (std::call_once treats it as an exceptional
execution) and the call itself ends in that exception (result `none`).
The third component records whether the body ran.  std::call_once
serializes executions and synchronizes the flag, so interleaved
concurrent calls are faithfully represented by sequences of these
atomic steps. -/
def initXmpCall (s : GateState) (b : InitBehavior) :
    GateState × Option Bool × Bool :=
  if s.flagDone then (s, some s.succeeded, false)
  else
    match b with
    | .ok => (⟨true, true⟩, some true, true)
    | .engineError => (⟨true, s.succeeded⟩, some s.succeeded, true)
    | .foreign => (s, none, true)

/-- Trace record of a sequence of gate calls: final state, the per-call
results (`none` = the call exited by the escaping foreign exception),
and how many times the setup body ran. -/
structure GateRun where
  final : GateState
  results : List (Option Bool)
  bodyRuns : Nat
deriving DecidableEq

/-- Run a sequence of gate calls from a given state. -/
def runGate : GateState → List InitBehavior → GateRun
  | s, [] => ⟨s, [], 0⟩
  | s, b :: bs =>
    let step := initXmpCall s b
    let rest := runGate step.1 bs
    ⟨rest.final, step.2.1 :: rest.results,
      (if step.2.2 then 1 else 0) + rest.bodyRuns⟩

/-- Modelled from the spec: the property store of the inner engine
SXMPMeta object, which is out of scope for this repository (spec section
1 treats the engine as a black box reachable through get/set property).
It is modelled as a key-value map from (namespace, path) to value with
last-write-wins update, the documented engine contract for simple
properties. -/
def XmpDoc : Type := List ((Bytes × Bytes) × Bytes)

/-- Modelled from the spec: engine SetProperty stores the value under
the (namespace, path) key, shadowing any earlier binding. -/
def XmpDoc.setProp (d : XmpDoc) (ns nm v : Bytes) : XmpDoc :=
  ((ns, nm), v) :: d

/-- Modelled from the spec: engine GetProperty returns the most recent
binding of the (namespace, path) key, if any. -/
def XmpDoc.getProp : XmpDoc → Bytes → Bytes → Option Bytes
  | [], _, _ => none
  | (k, v) :: d, ns, nm =>
    if k.1 = ns ∧ k.2 = nm then some v else XmpDoc.getProp d ns nm

/-- CXmpMetaSetProperty (ffi.cpp lines 633-650) run against the
spec-modelled engine store on its success path: the arguments cross the
boundary as nul-terminated C strings, so the engine sees the bytes up to
the first nul; the caller record and heap are untouched. -/
def CXmpMetaSetPropertyRun (d : XmpDoc) (ns nm value : Bytes)
    (outError : Option CXmpError) (h : Heap) :
    XmpDoc × Option CXmpError × Heap :=
  (XmpDoc.setProp d (takeUntilNul ns) (takeUntilNul nm) (takeUntilNul value),
    outError, h)

/-- CXmpMetaGetProperty (ffi.cpp lines 479-502) run against the
spec-modelled engine store: a found value is packaged through
copyStringForResult, an absent property yields NULL with the record
untouched.  (Engine-written option bits are not modelled and read 0.) -/
def CXmpMetaGetPropertyRun (d : XmpDoc) (ns nm : Bytes)
    (outError : Option CXmpError) (h : Heap) :
    Option Nat × Nat × Option CXmpError × Heap :=
  match XmpDoc.getProp d (takeUntilNul ns) (takeUntilNul nm) with
  | some v =>
    let a := copyStringForResult h v
    (some a.2, 0, outError, a.1)
  | none => (none, 0, outError, h)

/-! ## Heap lemmas -/

/-- Looking up a freshly appended cell at the old length finds it. -/
theorem heap_lookup_append_self (h : Heap) (c : Option Bytes) :
    Heap.lookup (h ++ [c]) (List.length h) = c := by
  induction h with
  | nil => rfl
  | cons a t ih => simpa [Heap.lookup] using ih

/-- A heap has no cell at its own length: the pointer returned by
`Heap.alloc` was never live before the allocation. -/
theorem heap_lookup_length (h : Heap) :
    Heap.lookup h (List.length h) = none := by
  induction h with
  | nil => rfl
  | cons a t ih => simpa [Heap.lookup] using ih

/-- Appending a cell does not disturb the existing cells. -/
theorem heap_lookup_append_lt (h : Heap) (c : Option Bytes) (q : Nat)
    (hq : q < List.length h) :
    Heap.lookup (h ++ [c]) q = Heap.lookup h q := by
  induction h generalizing q with
  | nil => simp at hq
  | cons a t ih =>
    cases q with
    | zero => rfl
    | succ n =>
      have hn : n < List.length t := by simpa using hq
      simpa [Heap.lookup] using ih n hn

/-! ## C string lemmas -/

/-- A byte list without nul reads back unchanged as a C string. -/
theorem takeUntilNul_no_nul (s : Bytes) (hs : ¬ 0 ∈ s) :
    takeUntilNul s = s := by
  induction s with
  | nil => rfl
  | cons b t ih =>
    have hb : ¬ b = 0 := fun hb0 => hs (by simp [hb0])
    have ht : ¬ 0 ∈ t := fun h0 => hs (by simp [h0])
    simp [takeUntilNul, hb, ih ht]

/-- Reading a nul-terminated buffer holding a nul-free payload recovers
exactly the payload. -/
theorem takeUntilNul_append_nul (s : Bytes) (hs : ¬ 0 ∈ s) :
    takeUntilNul (s ++ [0]) = s := by
  induction s with
  | nil => simp [takeUntilNul]
  | cons b t ih =>
    have hb : ¬ b = 0 := fun hb0 => hs (by simp [hb0])
    have ht : ¬ 0 ∈ t := fun h0 => hs (by simp [h0])
    simp [takeUntilNul, hb, ih ht]

/-- Looking up a key just stored finds the stored value. -/
theorem getProp_setProp (d : XmpDoc) (ns nm v : Bytes) :
    XmpDoc.getProp (XmpDoc.setProp d ns nm v) ns nm = some v := by
  simp [XmpDoc.setProp, XmpDoc.getProp]

/-! ## Gate lemmas -/

/-- Once the once-flag is set, further gate calls never run the body and
all of them return the cached outcome. -/
theorem runGate_done (bs : List InitBehavior) (s : GateState)
    (hs : s.flagDone = true) :
    (runGate s bs).bodyRuns = 0 ∧
      ∀ r ∈ (runGate s bs).results, r = some s.succeeded := by
  induction bs with
  | nil => exact ⟨rfl, by intro r hr; simp [runGate] at hr⟩
  | cons b t ih =>
    refine ⟨?_, ?_⟩
    · simp [runGate, initXmpCall, hs, ih.1]
    · intro r hr
      simp [runGate, initXmpCall, hs] at hr
      rcases hr with hr | hr
      · exact hr
      · exact ih.2 r hr

/-! ## Claim C1 -/

/-- Claim C1, counterexample: CXmpFileClose wraps its engine call in no
try/catch region, so an engine XMP_Error raised by CloseFile escapes the
boundary to the caller, refuting the claim that no boundary call ever
lets an exception propagate. -/
theorem c1_counterexample_close_propagates :
    CXmpFileClose (EngineOutcome.xmpError ⟨9, []⟩) =
      BoundaryResult.propagated := rfl

/-- Claim C1, amended: the boundary operations whose engine call sits
inside the catch handlers (SetProperty, GetProperty, FileOpen) never let
a fault propagate, and a caught engine fault is converted into the
ErrorRecord; but CXmpFileClose performs its engine call outside any
handler, so both fault kinds escape, and in CXmpMetaParseFromBuffer the
capsule construction sits outside the try region, so a throwing
construction escapes as well. -/
theorem c1_amended_fault_containment :
    (∀ (o : EngineOutcome Unit) (err : Option CXmpError) (h : Heap),
      ∃ st, CXmpMetaSetProperty o err h = BoundaryResult.ret st) ∧
    (∀ (g : EngineOutcome (Option (Bytes × Nat))) (err : Option CXmpError)
        (h : Heap),
      ∃ st, CXmpMetaGetProperty g err h = BoundaryResult.ret st) ∧
    (∀ (f : CXmpFile) (oc : OpenFileOutcome) (r : CXmpError) (h : Heap),
      ∃ st, CXmpFileOpen f oc r h = BoundaryResult.ret st) ∧
    (∀ (e : XMP_Error) (r : CXmpError) (h : Heap), ∃ p h2,
      CXmpMetaSetProperty (EngineOutcome.xmpError e) (some r) h =
        BoundaryResult.ret (some ⟨1, e.id, some p⟩, h2)) ∧
    (∀ e : XMP_Error,
      CXmpFileClose (EngineOutcome.xmpError e) = BoundaryResult.propagated) ∧
    (CXmpFileClose EngineOutcome.otherError = BoundaryResult.propagated) ∧
    (∀ (po : EngineOutcome Unit) (err : Option CXmpError) (h : Heap),
      CXmpMetaParseFromBuffer true EngineOutcome.otherError po err h =
        BoundaryResult.propagated) := by
  refine ⟨?_, ?_, ?_, ?_, ?_, rfl, ?_⟩
  · intro o err h
    cases o with
    | ok a => exact ⟨_, rfl⟩
    | xmpError e => exact ⟨_, rfl⟩
    | otherError => exact ⟨_, rfl⟩
  · intro g err h
    cases g with
    | ok a =>
      cases a with
      | none => exact ⟨_, rfl⟩
      | some v => exact ⟨_, rfl⟩
    | xmpError e => exact ⟨_, rfl⟩
    | otherError => exact ⟨_, rfl⟩
  · intro f oc r h
    cases oc with
    | opened => exact ⟨_, rfl⟩
    | failViaCallback cause msg => exact ⟨_, rfl⟩
    | failPlain => exact ⟨_, rfl⟩
    | throwXmp e => exact ⟨_, rfl⟩
    | throwOther => exact ⟨_, rfl⟩
  · intro e r h
    exact ⟨_, _, rfl⟩
  · intro e
    rfl
  · intro po err h
    rfl

/-! ## Claim C2 -/

/-- Claim C2, code bug witness: a CXmpFileOpen whose engine OpenFile
reports cause 7 with message bytes [104, 105] through the callback and
then returns false.  The out record does receive the cause and the
message pointer, and the embedded record is clean afterwards, but the
final `f->err.reset()` frees the very cell the shallow struct copy
placed in the out record: the message pointer (cell 0) dangles in the
final heap, so the out record does not validly hold the message string
and the later caller-side release of the record double-frees. -/
theorem c2_open_callback_dangling_message :
    CXmpFileOpen ⟨⟨0, 0, none⟩⟩ (OpenFileOutcome.failViaCallback 7 [104, 105])
        ⟨0, 0, none⟩ [] =
      BoundaryResult.ret (⟨⟨0, 0, none⟩⟩, ⟨1, 7, some 0⟩, [none]) ∧
    Heap.lookup [none] 0 = none := ⟨rfl, rfl⟩

/-! ## Claim C3 -/

/-- Claim C3, counterexample: if the first execution of the setup body
exits by a foreign (non-XMP_Error) exception, std::call_once leaves the
once-flag unset and a second boundary call runs the body again, so along
the call sequence [foreign, ok] the setup routine executes twice, not
exactly once. -/
theorem c3_counterexample_foreign_reruns :
    (runGate gateInit [InitBehavior.foreign, InitBehavior.ok]).bodyRuns
      = 2 := rfl

/-- Claim C3, amended: along every nonempty sequence of gate calls in
which no execution of the setup body exits by a foreign exception (that
is, each execution either succeeds or faults with the engine XMP_Error
that the body itself catches), the setup body runs exactly once and
every caller observes one and the same cached outcome. -/
theorem c3_amended_gate_exactly_once (bs : List InitBehavior)
    (hne : bs ≠ []) (hnf : ∀ b ∈ bs, b ≠ InitBehavior.foreign) :
    (runGate gateInit bs).bodyRuns = 1 ∧
      ∃ v : Bool, ∀ r ∈ (runGate gateInit bs).results, r = some v := by
  cases bs with
  | nil => exact absurd rfl hne
  | cons b t =>
    have hb := hnf b (List.mem_cons_self b t)
    cases b with
    | foreign => exact absurd rfl hb
    | ok =>
      have hrest := runGate_done t ⟨true, true⟩ rfl
      refine ⟨?_, true, ?_⟩
      · simp [runGate, initXmpCall, gateInit, hrest.1]
      · intro r hr
        simp [runGate, initXmpCall, gateInit] at hr
        rcases hr with hr | hr
        · exact hr
        · exact hrest.2 r hr
    | engineError =>
      have hrest := runGate_done t ⟨true, false⟩ rfl
      refine ⟨?_, false, ?_⟩
      · simp [runGate, initXmpCall, gateInit, hrest.1]
      · intro r hr
        simp [runGate, initXmpCall, gateInit] at hr
        rcases hr with hr | hr
        · exact hr
        · exact hrest.2 r hr

/-- Claim C3, witness: the amended theorem applied to the concrete
one-call sequence [ok]. -/
theorem c3_amended_gate_exactly_once_witness :
    ([InitBehavior.ok] ≠ []) ∧
    (∀ b ∈ [InitBehavior.ok], b ≠ InitBehavior.foreign) ∧
    ((runGate gateInit [InitBehavior.ok]).bodyRuns = 1 ∧
      ∃ v : Bool,
        ∀ r ∈ (runGate gateInit [InitBehavior.ok]).results, r = some v) :=
  ⟨by decide, by decide,
    c3_amended_gate_exactly_once [InitBehavior.ok] (by decide) (by decide)⟩

/-! ## Claim C4 -/

/-- Claim C4, counterexample: CXmpMetaSetProperty performs no reset of
the caller record at the start of the call; with a record that is
non-clean on entry and an engine call that succeeds, the record after
the call is the unchanged non-clean record, not the clean state the
claim requires. -/
theorem c4_counterexample_success_keeps_stale_error :
    CXmpMetaSetProperty (EngineOutcome.ok ()) (some ⟨1, 5, none⟩) [] =
      BoundaryResult.ret (some ⟨1, 5, none⟩, ([] : Heap)) ∧
    ¬ CXmpError.isClean ⟨1, 5, none⟩ := ⟨rfl, by decide⟩

/-- Claim C4, amended: fallible boundary operations (CXmpMetaSetProperty
as representative) do not reset the caller record on entry; on the
success path the record and heap are left entirely untouched (so the
record is clean afterwards exactly when it was clean on entry), and on
each failure path exactly one of the two populate routines runs: the
engine-fault path stores the fault id and a fresh live copy of the
engine message (releasing any previously owned message), and the
unknown-fault path stores the reserved unknown code with no message. -/
theorem c4_amended_no_reset_one_populate (r : CXmpError) (h : Heap) :
    CXmpMetaSetProperty (EngineOutcome.ok ()) (some r) h =
      BoundaryResult.ret (some r, h) ∧
    (∀ e : XMP_Error, ∃ p h2,
      CXmpMetaSetProperty (EngineOutcome.xmpError e) (some r) h =
        BoundaryResult.ret (some ⟨1, e.id, some p⟩, h2) ∧
      Heap.lookup h2 p = some (e.errMsg ++ [0])) ∧
    CXmpMetaSetProperty EngineOutcome.otherError (some r) h =
      BoundaryResult.ret (some ⟨1, kXMPErr_Unknown, none⟩,
        Heap.free h r.debugMessage) := by
  refine ⟨rfl, ?_, rfl⟩
  intro e
  exact ⟨List.length (Heap.free h r.debugMessage),
    Heap.free h r.debugMessage ++ [some (e.errMsg ++ [0])], rfl,
    heap_lookup_append_self _ _⟩

/-! ## Claim C5 -/

/-- Claim C5, counterexample: with the gate in the failed state,
CXmpDateTimeCurrent still reaches the inner-engine call (ghost flag
true): its body contains no init_xmp() check at all, refuting the claim
that every entry point touching engine state consults the gate first and
never calls the engine while uninitialized. -/
theorem c5_counterexample_datetime_current_skips_gate :
    (CXmpDateTimeCurrent false (some ⟨0⟩) (EngineOutcome.ok ⟨1⟩)
      (some ⟨0, 0, none⟩) []).1 = true := rfl

/-- Claim C5, amended: the gate-checked entry points
(CXmpMetaRegisterNamespace and CXmpMetaParseFromBuffer as
representatives) short-circuit on gate failure: the engine is not
reached, the record receives hadError, the reserved unknown code and a
fresh live copy of the fixed unavailability message, and the sentinel is
returned; CXmpDateTimeCurrent however never consults the gate, its
result being identical for every gate state. -/
theorem c5_amended_gate_short_circuit (r : CXmpError) (h : Heap) :
    (∀ ro : EngineOutcome Bytes, ∃ p h2,
      CXmpMetaRegisterNamespace false ro (some r) h =
        (false, none, some ⟨1, kXMPErr_Unknown, some p⟩, h2) ∧
      Heap.lookup h2 p = some (xmpUnavailableMsg ++ [0])) ∧
    (∀ co po : EngineOutcome Unit, ∃ p h2,
      CXmpMetaParseFromBuffer false co po (some r) h =
        BoundaryResult.ret (false, some ⟨1, kXMPErr_Unknown, some p⟩, h2) ∧
      Heap.lookup h2 p = some (xmpUnavailableMsg ++ [0])) ∧
    (∀ (g1 g2 : Bool) (dt : Option XMP_DateTime)
        (oc : EngineOutcome XMP_DateTime) (err : Option CXmpError)
        (hh : Heap),
      CXmpDateTimeCurrent g1 dt oc err hh =
        CXmpDateTimeCurrent g2 dt oc err hh) := by
  refine ⟨?_, ?_, ?_⟩
  · intro ro
    exact ⟨List.length (Heap.free h r.debugMessage),
      Heap.free h r.debugMessage ++ [some (xmpUnavailableMsg ++ [0])], rfl,
      heap_lookup_append_self _ _⟩
  · intro co po
    exact ⟨List.length (Heap.free h r.debugMessage),
      Heap.free h r.debugMessage ++ [some (xmpUnavailableMsg ++ [0])], rfl,
      heap_lookup_append_self _ _⟩
  · intro g1 g2 dt oc err hh
    rfl

/-! ## Claim C6 -/

/-- Claim C6: on every typed property read (string, bool, int, int64,
float, date) whose engine call reports the property absent (a false
return without a thrown fault), the boundary returns the absent sentinel
(NULL pointer respectively false presence flag, with the out value and
options untouched respectively zeroed) and the caller ErrorRecord passes
through entirely unchanged, so a clean record stays clean: absence never
populates an error. -/
theorem c6_absent_reads_clean (c : CXmpError) (h : Heap) (b : Bool)
    (i j : Int) (x : DoubleVal) (dt : XMP_DateTime) :
    CXmpMetaGetProperty (EngineOutcome.ok none) (some c) h =
      BoundaryResult.ret (none, 0, some c, h) ∧
    CXmpMetaGetProperty_Bool (EngineOutcome.ok none) (some c) b h =
      BoundaryResult.ret (false, b, 0, some c, h) ∧
    CXmpMetaGetProperty_Int (EngineOutcome.ok none) (some c) i h =
      BoundaryResult.ret (false, i, 0, some c, h) ∧
    CXmpMetaGetProperty_Int64 (EngineOutcome.ok none) (some c) j h =
      BoundaryResult.ret (false, j, 0, some c, h) ∧
    CXmpMetaGetProperty_Float (EngineOutcome.ok none) (some c) x h =
      BoundaryResult.ret (false, x, 0, some c, h) ∧
    CXmpMetaGetProperty_Date (EngineOutcome.ok none) (some c) dt h =
      BoundaryResult.ret (false, dt, 0, some c, h) :=
  ⟨rfl, rfl, rfl, rfl, rfl, rfl⟩

/-! ## Claim C7 -/

/-- Claim C7: packaging a source text of any length (empty included)
through copyStringForResult yields a buffer whose contents are exactly
the source bytes followed by one terminating nul byte (no truncation, no
re-encoding), at a pointer that was not live in the heap before the call
(hence never a pointer into pre-existing, engine-internal memory), and
every pre-existing cell is left untouched. -/
theorem c7_string_transfer_exact_and_fresh (h : Heap) (s : Bytes) :
    Heap.lookup (copyStringForResult h s).1 (copyStringForResult h s).2 =
      some (s ++ [0]) ∧
    Heap.lookup h (copyStringForResult h s).2 = none ∧
    ∀ q, q < List.length h →
      Heap.lookup (copyStringForResult h s).1 q = Heap.lookup h q := by
  refine ⟨?_, ?_, ?_⟩
  · exact heap_lookup_append_self h (some (s ++ [0]))
  · exact heap_lookup_length h
  · intro q hq
    exact heap_lookup_append_lt h (some (s ++ [0])) q hq

/-- Claim C7, witness: the packaging theorem applied to the concrete
heap [some [1]] and source bytes [42], discharging the cell-preservation
hypothesis at cell 0. -/
theorem c7_string_transfer_witness :
    (0 < List.length ([some [1]] : Heap)) ∧
    Heap.lookup (copyStringForResult [some [1]] [42]).1 0 =
      Heap.lookup ([some [1]] : Heap) 0 :=
  ⟨by decide,
    (c7_string_transfer_exact_and_fresh [some [1]] [42]).2.2 0 (by decide)⟩

/-! ## Claim C8 -/

/-- Claim C8: for every document, namespace, property name and non-null
value without embedded nul bytes, SetProperty followed by GetProperty on
the same document returns a fresh nul-terminated buffer holding exactly
the value, and reading that buffer as a C string recovers the value
unchanged. -/
theorem c8_set_get_roundtrip (d : XmpDoc) (ns nm value : Bytes)
    (err : Option CXmpError) (h : Heap) (hv : ¬ 0 ∈ value) :
    CXmpMetaGetPropertyRun (CXmpMetaSetPropertyRun d ns nm value err h).1
        ns nm err h =
      (some (List.length h), 0, err, h ++ [some (value ++ [0])]) ∧
    Heap.lookup (h ++ [some (value ++ [0])]) (List.length h) =
      some (value ++ [0]) ∧
    takeUntilNul (value ++ [0]) = value := by
  have h1 : takeUntilNul value = value := takeUntilNul_no_nul value hv
  refine ⟨?_, heap_lookup_append_self h _, takeUntilNul_append_nul value hv⟩
  simp [CXmpMetaSetPropertyRun, CXmpMetaGetPropertyRun, getProp_setProp, h1,
    copyStringForResult, Heap.alloc]

/-- Claim C8, witness: the round-trip theorem applied to the empty
document, namespace [97], name [98] and value [104, 105]. -/
theorem c8_set_get_roundtrip_witness :
    (¬ 0 ∈ ([104, 105] : Bytes)) ∧
    (CXmpMetaGetPropertyRun
        (CXmpMetaSetPropertyRun [] [97] [98] [104, 105] none []).1
        [97] [98] none [] =
      (some (List.length ([] : Heap)), 0, none,
        ([] : Heap) ++ [some (([104, 105] : Bytes) ++ [0])]) ∧
    Heap.lookup (([] : Heap) ++ [some (([104, 105] : Bytes) ++ [0])])
        (List.length ([] : Heap)) = some (([104, 105] : Bytes) ++ [0]) ∧
    takeUntilNul (([104, 105] : Bytes) ++ [0]) = [104, 105]) :=
  ⟨by decide, c8_set_get_roundtrip [] [97] [98] [104, 105] none [] (by decide)⟩

/-! ## Claim C9 -/

/-- Claim C9, counterexample: CXmpFileGetXmp returns NULL both when the
engine reports no metadata and when the engine call throws, and it takes
no error record; CXmpMetaDoesPropertyExist likewise returns 0 both for a
missing property and for a thrown fault.  For these operations a fault
is indistinguishable from absence. -/
theorem c9_counterexample_fault_conflated_with_absence :
    CXmpFileGetXmp (EngineOutcome.ok ())
        (EngineOutcome.xmpError ⟨3, [97]⟩) = none ∧
    CXmpFileGetXmp (EngineOutcome.ok ()) (EngineOutcome.ok false) = none ∧
    CXmpMetaDoesPropertyExist (EngineOutcome.xmpError ⟨3, [97]⟩) = 0 ∧
    CXmpMetaDoesPropertyExist (EngineOutcome.ok false) = 0 :=
  ⟨rfl, rfl, rfl, rfl⟩

/-- Claim C9, amended: reads that carry an ErrorRecord out-parameter do
distinguish the two cases — CXmpMetaGetProperty leaves the record
untouched on absence and populates it (hadError flagged with the engine
id) on an engine fault — but CXmpFileGetXmp and
CXmpMetaDoesPropertyExist return one and the same sentinel for absence
and for every fault while populating no record at all, so there the
caller cannot distinguish a fault from absence. -/
theorem c9_amended_fault_vs_absence (c : CXmpError) (h : Heap)
    (e : XMP_Error) :
    CXmpMetaGetProperty (EngineOutcome.ok none) (some c) h =
      BoundaryResult.ret (none, 0, some c, h) ∧
    (∃ p h2, CXmpMetaGetProperty (EngineOutcome.xmpError e) (some c) h =
      BoundaryResult.ret (none, 0, some ⟨1, e.id, some p⟩, h2)) ∧
    CXmpFileGetXmp (EngineOutcome.ok ()) (EngineOutcome.xmpError e) =
      CXmpFileGetXmp (EngineOutcome.ok ()) (EngineOutcome.ok false) ∧
    CXmpMetaDoesPropertyExist (EngineOutcome.xmpError e) =
      CXmpMetaDoesPropertyExist (EngineOutcome.ok false) :=
  ⟨rfl, ⟨_, _, rfl⟩, rfl, rfl⟩

/-! ## Claim C10 -/

/-- Claim C10, counterexample: the conclusion that any fallible boundary
operation may be invoked with a null error out-parameter is false.
CXmpFileOpen on a failing open (engine callback reports cause 7, then
OpenFile returns false) executes the unguarded store
`*outError = f->err` (ffi.cpp line 211); with a null record pointer this
is a write through null. -/
theorem c10_counterexample_open_null_write :
    CXmpFileOpenOpt ⟨⟨0, 0, none⟩⟩
        (OpenFileOutcome.failViaCallback 7 [104, 105]) none [] =
      OpenResult.nullDeref := rfl

/-- Claim C10, amended: the three error-population routines (copying a
known engine error, signaling an unknown error, signaling
initialization failure) are complete no-ops on a null record pointer
(null slot returned as-is, heap untouched), so operations whose error
paths write the record only through them tolerate a null error
out-parameter (CXmpMetaSetProperty as representative returns with slot
and heap untouched for every engine outcome, and the catch-handler
paths of CXmpFileOpen are likewise null-safe); but the OpenFile-false
path of CXmpFileOpen stores `*outError = f->err` with no null guard, so
a failing open invoked with a null out-parameter writes through the
null pointer.  For a non-null record CXmpFileOpenOpt coincides with
CXmpFileOpen. -/
theorem c10_amended_null_guard_scope (e : XMP_Error) (h : Heap) :
    copyErrorForResult e none h = (none, h) ∧
    signalUnknownError none h = (none, h) ∧
    signalXmpInitFailure none h = (none, h) ∧
    (∀ o : EngineOutcome Unit,
      CXmpMetaSetProperty o none h = BoundaryResult.ret (none, h)) ∧
    (∀ f : CXmpFile,
      CXmpFileOpenOpt f OpenFileOutcome.opened none h =
        OpenResult.ret (⟨⟨0, 0, none⟩⟩, none, Heap.free h f.err.debugMessage) ∧
      CXmpFileOpenOpt f (OpenFileOutcome.throwXmp e) none h =
        OpenResult.ret (⟨⟨0, 0, none⟩⟩, none, Heap.free h f.err.debugMessage) ∧
      CXmpFileOpenOpt f OpenFileOutcome.throwOther none h =
        OpenResult.ret (⟨⟨0, 0, none⟩⟩, none, Heap.free h f.err.debugMessage)) ∧
    (∀ (f : CXmpFile) (cause : Int) (msg : Bytes),
      CXmpFileOpenOpt f (OpenFileOutcome.failViaCallback cause msg) none h =
        OpenResult.nullDeref ∧
      CXmpFileOpenOpt f OpenFileOutcome.failPlain none h =
        OpenResult.nullDeref) ∧
    (∀ (f : CXmpFile) (oc : OpenFileOutcome) (r : CXmpError), ∃ a,
      CXmpFileOpen f oc r h = BoundaryResult.ret a ∧
      CXmpFileOpenOpt f oc (some r) h =
        OpenResult.ret (a.1, some a.2.1, a.2.2)) := by
  refine ⟨rfl, rfl, rfl, ?_, ?_, ?_, ?_⟩
  · intro o
    cases o with
    | ok a => rfl
    | xmpError e2 => rfl
    | otherError => rfl
  · intro f
    exact ⟨rfl, rfl, rfl⟩
  · intro f cause msg
    exact ⟨rfl, rfl⟩
  · intro f oc r
    cases oc with
    | opened => exact ⟨_, rfl, rfl⟩
    | failViaCallback cause msg => exact ⟨_, rfl, rfl⟩
    | failPlain => exact ⟨_, rfl, rfl⟩
    | throwXmp e2 => exact ⟨_, rfl, rfl⟩
    | throwOther => exact ⟨_, rfl, rfl⟩
